/-
Verification of the MagicGrid masonry layout engine (src/index.js).

The layout computation is embedded shallowly: measured geometry
(getBoundingClientRect widths/heights, the gutter) is modelled with
rationals, JavaScript `Math.floor` with `Int.floor`, and code paths that
throw a TypeError at runtime (indexing `items[0]` on an empty collection,
reading `children` of a `null` container) return `none`.

The controller (constructor / listen / getReady / resize debouncing) is
embedded as pure functions that return the list of host side effects each
method performs, and the debounce logic as a timed fold over the event
times of a resize burst.
-/
import Mathlib

namespace MagicGrid

/-- A measured bounding rectangle of an item (`getBoundingClientRect`). -/
structure Rect where
  width : ℚ
  height : ℚ
deriving DecidableEq, Repr

/-- A column during one layout pass (`{height: 0, index: i}` in `setup`). -/
structure Column where
  height : ℚ
  index : ℕ
deriving DecidableEq, Repr

/-- Construction-time configuration, after `checkParams` validation.
`maxColumns = none` models the falsy default (`config.maxColumns || false`);
a configured cap is a truthy (hence non-zero) number. -/
structure Config where
  static : Bool
  size : ℕ
  gutter : ℚ
  maxColumns : Option ℕ
  useMin : Bool
  useTransform : Bool
  animate : Bool
  center : Bool
  hasOnReady : Bool
deriving DecidableEq, Repr

/-- One positioned item: the column it was assigned to, the computed
`left` and `top` offsets, and the vertical gutter placed above it
(`topGutter` at line 156 of the source). -/
structure Placement where
  col : ℕ
  left : ℚ
  top : ℚ
  topGutter : ℚ
deriving DecidableEq, Repr

/-- Result of one full `positionItems` pass: the per-item placements, the
final column states, and the container height written at the end
(`maxHeight + gutter`). -/
structure LayoutResult where
  placements : List Placement
  cols : List Column
  containerHeight : ℚ
deriving DecidableEq, Repr

/-- `colWidth()`: `this.items()[0].getBoundingClientRect().width + this.gutter`.
Indexing an empty collection yields `undefined` and the rect access throws,
hence `none` on an empty item list. -/
def colWidth (gutter : ℚ) (items : List Rect) : Option ℚ :=
  match items with
  | [] => none
  | it :: _ => some (it.width + gutter)

/-- The column count computed by `setup()`:
`Math.floor((width + gutter)/colWidth) || 1`, then clamped down to
`maxColumns` when that is configured and exceeded. -/
def numColsOf (gutter : ℚ) (maxColumns : Option ℕ) (width cw : ℚ) : ℤ :=
  let raw : ℤ := ⌊(width + gutter) / cw⌋
  let n₀ : ℤ := if raw = 0 then 1 else raw
  match maxColumns with
  | some m => if n₀ > (m : ℤ) then (m : ℤ) else n₀
  | none => n₀

/-- `setup()`: computes the column list (height 0, index = position) and the
leftover whitespace `wSpace = width - numCols * colWidth + gutter`. -/
def setup (cfg : Config) (width : ℚ) (items : List Rect) :
    Option (List Column × ℚ) :=
  match colWidth cfg.gutter items with
  | none => none
  | some cw =>
    let numCols := numColsOf cfg.gutter cfg.maxColumns width cw
    let cols := (List.range numCols.toNat).map (fun i => ⟨0, i⟩)
    let wSpace := width - (numCols : ℚ) * cw + cfg.gutter
    some (cols, wSpace)

/-- Modelled from the spec: the minimum-finder helper `getMin` lives in
`src/utils.js`, which is not part of the provided sources. The spec states
it returns the column with the strictly smallest current height, ties
broken by first occurrence in scan order. -/
def getMin (cols : List Column) : Option Column :=
  cols.foldl
    (fun acc c =>
      match acc with
      | none => some c
      | some m => if c.height < m.height then some c else acc)
    none

/-- `nextCol(cols, i)`: shortest column under `useMin`, otherwise
round-robin `cols[i % cols.length]`. -/
def nextCol (useMin : Bool) (cols : List Column) (i : ℕ) : Option Column :=
  if useMin then getMin cols
  else cols.get? (i % cols.length)

/-- Lines 156-168 for a single item: the vertical gutter is applied only
when the selected column already has a truthy (non-zero) height; `left` is
`col.index * colWidth + wSpace`, `top` is `col.height + topGutter`, and the
column height grows by the item's measured height plus the gutter. Returns
the placement together with the column's new height. -/
def placeItem (g cw ws : ℚ) (col : Column) (itemH : ℚ) : Placement × ℚ :=
  let tg : ℚ := if col.height = 0 then 0 else g
  (⟨col.index, (col.index : ℚ) * cw + ws, col.height + tg, tg⟩,
   col.height + itemH + tg)

/-- The column list after the selected column's height is updated in place
(`col.height += ...`, line 168); columns have pairwise distinct indices, so
matching on the index identifies the mutated object. -/
def updateCols (cols : List Column) (col : Column) (newH : ℚ) : List Column :=
  cols.map (fun c => if c.index = col.index then { c with height := newH } else c)

/-- The loop of `positionItems` (lines 153-173), iterating the items with
their indices while threading the column states and the running maximum
column height. `ws` is the (already halved-or-zeroed) centering offset
added to every `left`. -/
def positionLoop (u : Bool) (g cw ws : ℚ) :
    ℕ → List Column → ℚ → List Rect → Option (List Column × ℚ × List Placement)
  | _, cols, maxH, [] => some (cols, maxH, [])
  | i, cols, maxH, item :: rest =>
    match nextCol u cols i with
    | none => none
    | some col =>
      let pr := placeItem g cw ws col item.height
      (positionLoop u g cw ws (i + 1) (updateCols cols col pr.2)
          (if maxH < pr.2 then pr.2 else maxH) rest).map
        (fun s => (s.1, s.2.1, pr.1 :: s.2.2))

/-- `positionItems()`: one full layout pass. Computes columns and leftover
space, halves the leftover when centering (else zero), places every item,
and finally sets the container height to `maxHeight + gutter`. -/
def positionItems (cfg : Config) (width : ℚ) (items : List Rect) :
    Option LayoutResult :=
  match setup cfg width items with
  | none => none
  | some (cols, wSpace₀) =>
    match colWidth cfg.gutter items with
    | none => none
    | some cw =>
      let ws : ℚ := if cfg.center then (⌊wSpace₀ / 2⌋ : ℤ) else 0
      match positionLoop cfg.useMin cfg.gutter cw ws 0 cols 0 items with
      | none => none
      | some (cf, maxH, ps) => some ⟨ps, cf, maxH + cfg.gutter⟩

/-- The style surface of one item: `top`/`left` offsets, or a 2D translate
transform, written by `positionItems`; `none` models a property that was
never assigned. -/
structure ItemStyle where
  top : Option ℚ
  left : Option ℚ
  transform : Option (ℚ × ℚ)
deriving DecidableEq, Repr

/-- The mutable host state a layout pass writes to: one style record per
item, and the container's `height` style. -/
structure DomState where
  styles : List ItemStyle
  containerHeight : Option ℚ
deriving DecidableEq, Repr

/-- Lines 160-166: write one placement to an item's style, either as a
translate transform (`useTransform`) or as `top`/`left`. -/
def applyPlacement (useTransform : Bool) (st : ItemStyle) (p : Placement) :
    ItemStyle :=
  if useTransform then { st with transform := some (p.left, p.top) }
  else { st with top := some p.top, left := some p.left }

/-- One full `positionItems` pass as a transformer of the host state: the
computed placements overwrite the item styles and the container height
(line 175). The measured geometry (`items`, `width`) is an input — the
pass never reads the styles it writes. `none` models a thrown pass, which
mutates nothing. -/
def applyLayout (cfg : Config) (width : ℚ) (items : List Rect)
    (st : DomState) : Option DomState :=
  match positionItems cfg width items with
  | none => none
  | some r =>
    some ⟨List.zipWith (applyPlacement cfg.useTransform) st.styles r.placements,
          some r.containerHeight⟩

/-- A host side effect performed by a controller method. -/
inductive Eff where
  | styleInit
  | scheduleInterval
  | cancelInterval
  | addResizeListener
  | layout
  | readyCallback
deriving DecidableEq, Repr

/-- `ready()` (lines 184-187): `static` short-circuits to `true`; otherwise
the item count of the resolved container is compared against `size`. A
missing container (`none`) makes `this.items()` read `children` of `null`,
which throws: modelled as `none`. -/
def readyCheck (static : Bool) (size : ℕ) (container : Option ℕ) :
    Option Bool :=
  if static then some true
  else container.map (fun n => decide (size ≤ n))

/-- The constructor (lines 22-46) after `checkParams` validation: it stores
the configuration and calls `initStyles`, which styles the present items
only when `ready()` holds (line 54). It schedules no timer, adds no
listener, and performs no layout pass. `container` is the item count of the
resolved container, `none` when unresolved. -/
def constructorEffs (static : Bool) (size : ℕ) (container : Option ℕ) :
    Option (List Eff) :=
  match readyCheck static size container with
  | none => none
  | some true => some [Eff.styleInit]
  | some false => some []

/-- `listen()` (lines 214-233): when ready, it subscribes to resize events,
runs one layout pass, and fires the ready callback (if configured);
otherwise it calls `getReady()`, which schedules the 100ms polling
interval. -/
def listenEffs (static : Bool) (size : ℕ) (container : Option ℕ)
    (hasOnReady : Bool) : Option (List Eff) :=
  match readyCheck static size container with
  | none => none
  | some true =>
    some ([Eff.addResizeListener, Eff.layout] ++
      if hasOnReady then [Eff.readyCallback] else [])
  | some false => some [Eff.scheduleInterval]

/-- One tick of the `getReady` polling interval (lines 198-206): re-resolve
the container, re-check readiness; when ready, clear the interval and call
`listen()`. `resolved` is the freshly resolved container (`none` when
`querySelector` found nothing, in which case `ready()` throws and the tick
aborts: `none`). An uncaught throw inside an interval callback does not
cancel the interval, so the host keeps ticking. -/
def getReadyTick (static : Bool) (size : ℕ) (resolved : Option ℕ)
    (hasOnReady : Bool) : Option (List Eff) :=
  match readyCheck static size resolved with
  | none => none
  | some true =>
    (listenEffs static size resolved hasOnReady).map
      (fun es => Eff.cancelInterval :: es)
  | some false => some []

/-- The resize handler installed by `listen()` (lines 218-225): when a
debounce timeout is already pending nothing happens; otherwise a timeout
firing 200ms from now is scheduled. The pending value is the absolute fire
time. -/
def handleResize (now : ℚ) (pending : Option ℚ) : Option ℚ :=
  match pending with
  | some ft => some ft
  | none => some (now + 200)

/-- Timed run of the debounce state machine over the resize notification
times (ascending): a pending timeout fires (running `positionItems` and
clearing the pending marker, lines 220-223) as soon as its fire time is
reached, and each notification then goes through `handleResize`. Returns
the times at which layout recomputations fire, including the one still
pending after the last notification. -/
def debounceRun : Option ℚ → List ℚ → List ℚ
  | pending, [] =>
    match pending with
    | some ft => [ft]
    | none => []
  | pending, t :: rest =>
    match pending with
    | none => debounceRun (handleResize t none) rest
    | some ft =>
      if ft ≤ t then ft :: debounceRun (handleResize t none) rest
      else debounceRun (handleResize t (some ft)) rest

/-- Whether the `i`-th placement of a pass is the first item placed into
its column: no earlier placement was assigned the same column. -/
def firstInCol (ps : List Placement) (i : ℕ) : Bool :=
  match ps.get? i with
  | none => true
  | some p => (ps.take i).all (fun q => q.col != p.col)

/-- Claim C3 as stated: in a pass's placements, an item's vertical gutter
is zero exactly when it is the first item placed into its column. -/
def claimC3Pred (ps : List Placement) : Prop :=
  ∀ i p, ps.get? i = some p → (p.topGutter = 0 ↔ firstInCol ps i = true)

/-- Claim C9 as stated: a burst of notifications at the given times (the
head is the first) yields exactly one recomputation, 200ms after the last
notification of the burst. -/
def claimC9Pred (e : ℚ) (es : List ℚ) : Prop :=
  debounceRun none (e :: es) = [(e :: es).getLastD 0 + 200]

/-- The C1 scenario configuration: gutter 10, round-robin, no cap. -/
def cfgC1 : Config :=
  ⟨false, 5, 10, none, false, false, false, false, false⟩

/-- The C1 items: width 90 each, heights [50, 80, 30, 60, 40]. -/
def itemsC1 : List Rect :=
  [⟨90, 50⟩, ⟨90, 80⟩, ⟨90, 30⟩, ⟨90, 60⟩, ⟨90, 40⟩]

/-- A witness configuration for C2: gutter 10, `maxColumns` capped at 2. -/
def cfgC2 : Config :=
  ⟨false, 5, 10, some 2, false, false, false, false, false⟩

/-- Items for the C3 counterexample: the first has measured height 0, so
the column's accumulated height stays 0 (falsy) when the second item of the
same column is placed. -/
def itemsC3 : List Rect :=
  [⟨90, 0⟩, ⟨90, 50⟩]

/-- The C5 counterexample configuration: centering enabled, gutter 10. -/
def cfgC5 : Config :=
  ⟨false, 5, 10, none, false, false, false, true, false⟩

/-- The C5 counterexample item: a single 90-wide item in a 50-wide
container, so the single-column layout has negative leftover space. -/
def itemsC5 : List Rect :=
  [⟨90, 20⟩]

end MagicGrid

/-- C1: with container width 300, item width 90, gutter 10, the pass
computes colWidth = 100 and 3 columns; the five items of heights
[50, 80, 30, 60, 40] go to columns 0,1,2,0,1, the final column heights are
120, 130, 30, and the container height is set to 140. -/
theorem C1_layout_scenario :
    MagicGrid.colWidth 10 MagicGrid.itemsC1 = some 100 ∧
    MagicGrid.positionItems MagicGrid.cfgC1 300 MagicGrid.itemsC1 =
      some ⟨[⟨0, 0, 0, 0⟩, ⟨1, 100, 0, 0⟩, ⟨2, 200, 0, 0⟩,
             ⟨0, 0, 60, 10⟩, ⟨1, 100, 90, 10⟩],
            [⟨120, 0⟩, ⟨130, 1⟩, ⟨30, 2⟩], 140⟩ := by
  constructor
  · norm_num [MagicGrid.colWidth, MagicGrid.itemsC1]
  · norm_num [MagicGrid.positionItems, MagicGrid.setup, MagicGrid.colWidth,
      MagicGrid.numColsOf, MagicGrid.nextCol, MagicGrid.positionLoop,
      MagicGrid.placeItem, MagicGrid.updateCols,
      MagicGrid.cfgC1, MagicGrid.itemsC1, List.range_succ,
      show Int.toNat 3 = 3 from rfl]

namespace MagicGrid

/-- With a non-negative numerator and positive column width, the raw
floored quotient of `setup` is non-negative, so after the `|| 1` and
`maxColumns` clamps the column count is between 1 and the cap. -/
theorem numColsOf_bounds (g : ℚ) (mc : Option ℕ) (width cw : ℚ)
    (hw : 0 ≤ width) (hg : 0 ≤ g) (hcw : 0 < cw)
    (hm : ∀ m, mc = some m → 0 < m) :
    1 ≤ numColsOf g mc width cw ∧
      ∀ m, mc = some m → numColsOf g mc width cw ≤ (m : ℤ) := by
  have hraw : (0 : ℤ) ≤ ⌊(width + g) / cw⌋ :=
    Int.floor_nonneg.mpr (div_nonneg (by linarith) hcw.le)
  unfold numColsOf
  cases mc with
  | none =>
    refine ⟨?_, by simp⟩
    by_cases h : ⌊(width + g) / cw⌋ = 0
    · simp [h]
    · simp only [h, if_false]
      omega
  | some m =>
    have hm' : 0 < m := hm m rfl
    constructor
    · by_cases h : ⌊(width + g) / cw⌋ = 0 <;> simp only [h, if_true, if_false] <;>
        split <;> omega
    · intro m' hm''
      have : m' = m := by injection hm'' with h; omega
      subst this
      by_cases h : ⌊(width + g) / cw⌋ = 0 <;> simp only [h, if_true, if_false] <;>
        split <;> omega

end MagicGrid

/-- C2: for every non-negative container width and gutter and positive
column width, `setup` produces at least one column, and no more than the
configured `maxColumns` cap when one is set. -/
theorem C2_numCols_bounds (cfg : MagicGrid.Config) (width : ℚ)
    (items : List MagicGrid.Rect) (cols : List MagicGrid.Column) (w cw : ℚ)
    (hcw : MagicGrid.colWidth cfg.gutter items = some cw)
    (hpos : 0 < cw) (hw : 0 ≤ width) (hg : 0 ≤ cfg.gutter)
    (hm : ∀ m, cfg.maxColumns = some m → 0 < m)
    (hs : MagicGrid.setup cfg width items = some (cols, w)) :
    1 ≤ cols.length ∧ ∀ m, cfg.maxColumns = some m → cols.length ≤ m := by
  have hb := MagicGrid.numColsOf_bounds cfg.gutter cfg.maxColumns width cw
    hw hg hpos hm
  unfold MagicGrid.setup at hs
  rw [hcw] at hs
  simp only [Option.some.injEq, Prod.mk.injEq] at hs
  obtain ⟨hcols, -⟩ := hs
  subst hcols
  simp only [List.length_map, List.length_range]
  constructor
  · omega
  · intro m hmm
    have := hb.2 m hmm
    omega

/-- Witness for C2: container width 300, first item width 90, cap 2 — the
raw count 3 is clamped to 2 columns, which is within [1, maxColumns]. -/
theorem C2_numCols_bounds_witness :
    1 ≤ ([⟨0, 0⟩, ⟨0, 1⟩] : List MagicGrid.Column).length ∧
      ∀ m, MagicGrid.cfgC2.maxColumns = some m →
        ([⟨0, 0⟩, ⟨0, 1⟩] : List MagicGrid.Column).length ≤ m :=
  C2_numCols_bounds MagicGrid.cfgC2 300 [⟨90, 50⟩] [⟨0, 0⟩, ⟨0, 1⟩] 110 100
    (by norm_num [MagicGrid.colWidth, MagicGrid.cfgC2]) (by norm_num)
    (by norm_num)
    (by norm_num [MagicGrid.cfgC2])
    (by intro m hm; simp [MagicGrid.cfgC2] at hm; omega)
    (by norm_num [MagicGrid.setup, MagicGrid.colWidth, MagicGrid.numColsOf,
      MagicGrid.cfgC2, List.range_succ, show Int.toNat 2 = 2 from rfl])

namespace MagicGrid

/-- Writing the same placement to a style twice is the same as writing it
once: the pass overwrites whole style properties. -/
theorem applyPlacement_idem (u : Bool) (s : ItemStyle) (p : Placement) :
    applyPlacement u (applyPlacement u s p) p = applyPlacement u s p := by
  cases u <;> simp [applyPlacement]

/-- Re-applying a placement list over already-applied styles is a no-op. -/
theorem zipWith_applyPlacement_idem (u : Bool) :
    ∀ (ss : List ItemStyle) (ps : List Placement),
      List.zipWith (applyPlacement u) (List.zipWith (applyPlacement u) ss ps) ps =
        List.zipWith (applyPlacement u) ss ps := by
  intro ss
  induction ss with
  | nil => intro ps; simp
  | cons s ss ih =>
    intro ps
    cases ps with
    | nil => simp
    | cons p ps => simp [applyPlacement_idem, ih]

end MagicGrid

/-- C8: a full layout pass is idempotent as a host-state transformer — the
pass reads only the measured geometry, never the styles it wrote, so
running it a second time with unchanged measurements and container width
reproduces exactly the state the first run produced. -/
theorem C8_layout_idempotent (cfg : MagicGrid.Config) (w : ℚ)
    (items : List MagicGrid.Rect) (st st' : MagicGrid.DomState)
    (h : MagicGrid.applyLayout cfg w items st = some st') :
    MagicGrid.applyLayout cfg w items st' = some st' := by
  unfold MagicGrid.applyLayout at h ⊢
  cases hr : MagicGrid.positionItems cfg w items with
  | none => rw [hr] at h; exact absurd h (by simp)
  | some r =>
    rw [hr] at h
    simp only [Option.some.injEq] at h
    subst h
    simp [MagicGrid.zipWith_applyPlacement_idem]

/-- Witness for C8: a one-item grid (width 300, item 90×50, gutter 10) laid
out once reaches a state that a second pass maps to itself. -/
theorem C8_layout_idempotent_witness :
    MagicGrid.applyLayout MagicGrid.cfgC1 300 [⟨90, 50⟩]
        ⟨[⟨some 0, some 0, none⟩], some 60⟩ =
      some ⟨[⟨some 0, some 0, none⟩], some 60⟩ :=
  C8_layout_idempotent MagicGrid.cfgC1 300 [⟨90, 50⟩] ⟨[⟨none, none, none⟩], none⟩
    ⟨[⟨some 0, some 0, none⟩], some 60⟩
    (by norm_num [MagicGrid.applyLayout, MagicGrid.positionItems, MagicGrid.setup,
      MagicGrid.colWidth, MagicGrid.numColsOf, MagicGrid.nextCol,
      MagicGrid.positionLoop, MagicGrid.placeItem, MagicGrid.updateCols,
      MagicGrid.applyPlacement, MagicGrid.cfgC1, List.range_succ,
      show Int.toNat 3 = 3 from rfl])

/-- C4 counterexample: with zero items a layout pass does not complete —
`colWidth` indexes the empty item collection and the pass throws, so no
result state exists at all (the claim says the pass is a completing
no-op). -/
theorem C4_counterexample :
    ¬ ∃ st', MagicGrid.applyLayout MagicGrid.cfgC1 300 [] ⟨[], none⟩ = some st' := by
  simp [MagicGrid.applyLayout, MagicGrid.positionItems, MagicGrid.setup,
    MagicGrid.colWidth]

/-- C4 (amended): with zero items the layout pass throws while computing
the column width (there is no first item to measure) and therefore mutates
nothing — in particular the container height is left unset. -/
theorem C4_zero_items_throws (cfg : MagicGrid.Config) (w : ℚ)
    (st : MagicGrid.DomState) :
    MagicGrid.positionItems cfg w [] = none ∧
      MagicGrid.applyLayout cfg w [] st = none := by
  constructor
  · simp [MagicGrid.positionItems, MagicGrid.setup, MagicGrid.colWidth]
  · simp [MagicGrid.applyLayout, MagicGrid.positionItems, MagicGrid.setup,
      MagicGrid.colWidth]

namespace MagicGrid

/-- The loop reads only the measured heights of the items: two item lists
with pointwise equal heights produce identical loop results. -/
theorem positionLoop_heights_only (u : Bool) (g cw ws : ℚ) :
    ∀ (xs ys : List Rect), xs.map Rect.height = ys.map Rect.height →
      ∀ (i : ℕ) (cols : List Column) (maxH : ℚ),
        positionLoop u g cw ws i cols maxH xs =
          positionLoop u g cw ws i cols maxH ys := by
  intro xs
  induction xs with
  | nil =>
    intro ys hmap i cols maxH
    cases ys with
    | nil => rfl
    | cons y ys => simp at hmap
  | cons x xs ih =>
    intro ys hmap i cols maxH
    cases ys with
    | nil => simp at hmap
    | cons y ys =>
      simp only [List.map_cons, List.cons.injEq] at hmap
      obtain ⟨hh, ht⟩ := hmap
      simp only [positionLoop, hh]
      cases nextCol u cols i with
      | none => rfl
      | some col => simp [ih ys ht]

end MagicGrid

/-- C10: the column width is derived solely from the first item's measured
width plus the gutter; it is undefined (throws) without at least one item;
and a whole layout pass never reads the width of any item other than the
first — item lists agreeing on all heights and on the first width lay out
identically. -/
theorem C10_colWidth_first_item_only :
    (∀ g : ℚ, MagicGrid.colWidth g [] = none) ∧
    (∀ (g : ℚ) (it : MagicGrid.Rect) (rest : List MagicGrid.Rect),
      MagicGrid.colWidth g (it :: rest) = some (it.width + g)) ∧
    (∀ (cfg : MagicGrid.Config) (w : ℚ) (its₁ its₂ : List MagicGrid.Rect),
      its₁.map MagicGrid.Rect.height = its₂.map MagicGrid.Rect.height →
      its₁.head?.map MagicGrid.Rect.width = its₂.head?.map MagicGrid.Rect.width →
      MagicGrid.positionItems cfg w its₁ = MagicGrid.positionItems cfg w its₂) := by
  refine ⟨fun g => rfl, fun g it rest => rfl, ?_⟩
  intro cfg w its₁ its₂ hmap hhead
  have hcw : MagicGrid.colWidth cfg.gutter its₁ = MagicGrid.colWidth cfg.gutter its₂ := by
    cases its₁ with
    | nil =>
      cases its₂ with
      | nil => rfl
      | cons y ys => simp at hmap
    | cons x xs =>
      cases its₂ with
      | nil => simp at hmap
      | cons y ys =>
        have hw : x.width = y.width := by simpa using hhead
        simp [MagicGrid.colWidth, hw]
  unfold MagicGrid.positionItems MagicGrid.setup
  rw [hcw]
  cases MagicGrid.colWidth cfg.gutter its₂ with
  | none => rfl
  | some cw =>
    simp only
    rw [MagicGrid.positionLoop_heights_only cfg.useMin cfg.gutter cw _ its₁ its₂ hmap]

/-- Witness for C10: two item lists that differ only in the width of the
non-first item produce the very same layout. -/
theorem C10_colWidth_first_item_only_witness :
    MagicGrid.positionItems MagicGrid.cfgC1 300 [⟨90, 50⟩, ⟨40, 60⟩] =
      MagicGrid.positionItems MagicGrid.cfgC1 300 [⟨90, 50⟩, ⟨77, 60⟩] :=
  C10_colWidth_first_item_only.2.2 MagicGrid.cfgC1 300
    [⟨90, 50⟩, ⟨40, 60⟩] [⟨90, 50⟩, ⟨77, 60⟩] (by norm_num) (by norm_num)

namespace MagicGrid

/-- Splitting the item list splits the loop: running the loop over
`xs ++ ys` is running it over `xs` and continuing from the reached state
(with the item index advanced by `xs.length`) over `ys`. -/
theorem positionLoop_append (u : Bool) (g cw ws : ℚ) (xs : List Rect) :
    ∀ (ys : List Rect) (i : ℕ) (cols : List Column) (maxH : ℚ),
      positionLoop u g cw ws i cols maxH (xs ++ ys) =
        (positionLoop u g cw ws i cols maxH xs).bind (fun r =>
          (positionLoop u g cw ws (i + xs.length) r.1 r.2.1 ys).map
            (fun s => (s.1, s.2.1, r.2.2 ++ s.2.2))) := by
  induction xs with
  | nil =>
    intro ys i cols maxH
    simp only [List.nil_append, positionLoop, Option.some_bind, List.length_nil,
      Nat.add_zero, List.nil_append]
    cases positionLoop u g cw ws i cols maxH ys with
    | none => rfl
    | some s => rfl
  | cons x xs ih =>
    intro ys i cols maxH
    simp only [List.cons_append, positionLoop]
    cases nextCol u cols i with
    | none => rfl
    | some col =>
      simp only [List.append_eq]
      rw [ih]
      cases positionLoop u g cw ws (i + 1)
          (updateCols cols col (placeItem g cw ws col x.height).2)
          (if maxH < (placeItem g cw ws col x.height).2
            then (placeItem g cw ws col x.height).2 else maxH) xs with
      | none => rfl
      | some r =>
        have hn : i + 1 + xs.length = i + (x :: xs).length := by
          simp [List.length_cons]; omega
        rw [hn]
        simp only [Option.some_bind, Option.map_some, Option.map_map,
          List.cons_append, List.length_cons]
        congr 1

end MagicGrid

/-- C3 counterexample: with gutter 10 in a single-column layout, a first
item of measured height 0 leaves the column height at 0 (falsy), so the
second item — which is NOT the first item placed into column 0 — also gets
a zero vertical gutter, refuting the claimed "zero gutter iff first in
column" equivalence. -/
theorem C3_counterexample :
    ∃ r, MagicGrid.positionItems MagicGrid.cfgC1 50 MagicGrid.itemsC3 = some r ∧
      ¬ MagicGrid.claimC3Pred r.placements := by
  refine ⟨⟨[⟨0, 0, 0, 0⟩, ⟨0, 0, 0, 0⟩], [⟨50, 0⟩], 60⟩, ?_, ?_⟩
  · norm_num [MagicGrid.positionItems, MagicGrid.setup, MagicGrid.colWidth,
      MagicGrid.numColsOf, MagicGrid.nextCol, MagicGrid.positionLoop,
      MagicGrid.placeItem, MagicGrid.updateCols, MagicGrid.cfgC1,
      MagicGrid.itemsC3, List.range_succ, show Int.toNat 1 = 1 from rfl]
  · intro h
    have h1 := h 1 ⟨0, 0, 0, 0⟩ rfl
    simp [MagicGrid.firstInCol] at h1

/-- C3 (amended): for a nonzero gutter, the vertical gutter above an item
is zero exactly when its column's ACCUMULATED height is zero at placement
time — true for the column's first item, but also for later items whenever
all earlier items in the column had measured height 0. The item's top is
the accumulated height plus that gutter, and the column grows by the
item's height plus that gutter. -/
theorem C3_topGutter_amended (u : Bool) (g cw ws : ℚ)
    (cols₀ : List MagicGrid.Column) (items : List MagicGrid.Rect) (i : ℕ)
    (cols' : List MagicGrid.Column) (m' : ℚ) (ps' : List MagicGrid.Placement)
    (col : MagicGrid.Column) (item : MagicGrid.Rect)
    (hg : g ≠ 0)
    (hpre : MagicGrid.positionLoop u g cw ws 0 cols₀ 0 (items.take i) =
      some (cols', m', ps'))
    (hi : i < items.length)
    (hget : items[i]? = some item)
    (hcol : MagicGrid.nextCol u cols' i = some col) :
    ((if col.height = 0 then (0 : ℚ) else g) = 0 ↔ col.height = 0) ∧
      MagicGrid.positionLoop u g cw ws 0 cols₀ 0 (items.take (i + 1)) =
        some (MagicGrid.updateCols cols' col
                (col.height + item.height + (if col.height = 0 then 0 else g)),
              (if m' < col.height + item.height + (if col.height = 0 then 0 else g)
                then col.height + item.height + (if col.height = 0 then 0 else g)
                else m'),
              ps' ++ [⟨col.index, (col.index : ℚ) * cw + ws,
                      col.height + (if col.height = 0 then 0 else g),
                      if col.height = 0 then 0 else g⟩]) := by
  constructor
  · by_cases hc : col.height = 0
    · simp [hc]
    · simp [hc, hg]
  · rw [List.take_succ, hget]
    rw [MagicGrid.positionLoop_append, hpre]
    have hlen : (items.take i).length = i := by
      rw [List.length_take]; omega
    rw [Option.some_bind, hlen]
    simp only [Nat.zero_add, Option.toList_some]
    simp [MagicGrid.positionLoop, hcol, MagicGrid.placeItem]

/-- Witness for the amended C3: placing the second item of `itemsC3` (its
column's accumulated height is 0 because the first item measured 0 high)
yields a zero top gutter even though it is not first in its column. -/
theorem C3_topGutter_amended_witness :
    MagicGrid.positionLoop false 10 100 0 0 [⟨0, 0⟩] 0 (MagicGrid.itemsC3.take 2) =
      some ([⟨50, 0⟩], 50, [⟨0, 0, 0, 0⟩, ⟨0, 0, 0, 0⟩]) := by
  have h := C3_topGutter_amended false 10 100 0 [⟨0, 0⟩] MagicGrid.itemsC3 1
    [⟨0, 0⟩] 0 [⟨0, 0, 0, 0⟩] ⟨0, 0⟩ ⟨90, 50⟩ (by norm_num)
    (by norm_num [MagicGrid.positionLoop, MagicGrid.nextCol, MagicGrid.placeItem,
      MagicGrid.updateCols, MagicGrid.itemsC3])
    (by norm_num [MagicGrid.itemsC3])
    (by norm_num [MagicGrid.itemsC3])
    rfl
  rw [show (2 : ℕ) = 1 + 1 from rfl, h.2]
  norm_num [MagicGrid.updateCols]

namespace MagicGrid

/-- Every placement a loop run produces has
`left = column index * colWidth + wSpace` — the (possibly negative)
centering offset `ws` is added to every item's left coordinate. -/
theorem positionLoop_left (u : Bool) (g cw ws : ℚ) :
    ∀ (items : List Rect) (i : ℕ) (cols : List Column) (maxH : ℚ)
      (cf : List Column) (mf : ℚ) (ps : List Placement),
      positionLoop u g cw ws i cols maxH items = some (cf, mf, ps) →
      ∀ p ∈ ps, p.left = (p.col : ℚ) * cw + ws := by
  intro items
  induction items with
  | nil =>
    intro i cols maxH cf mf ps h p hp
    simp only [positionLoop, Option.some.injEq, Prod.mk.injEq] at h
    obtain ⟨-, -, h3⟩ := h
    rw [← h3] at hp
    simp at hp
  | cons x xs ih =>
    intro i cols maxH cf mf ps h p hp
    simp only [positionLoop] at h
    cases hnc : nextCol u cols i with
    | none => rw [hnc] at h; simp at h
    | some col =>
      rw [hnc] at h
      simp only [Option.map_eq_some'] at h
      obtain ⟨s, hs, heq⟩ := h
      obtain ⟨a, b, c⟩ := s
      simp only [Prod.mk.injEq] at heq
      obtain ⟨-, -, h3⟩ := heq
      rw [← h3] at hp
      cases hp with
      | head => simp [placeItem]
      | tail _ hp => exact ih _ _ _ _ _ _ hs p hp

end MagicGrid

/-- C5 counterexample: centering with a 90-wide item in a 50-wide container
(gutter 10) gives leftover space −40; the code applies the negative offset
`floor(−40/2) = −20` to the item's left coordinate instead of treating it
as 0, contradicting the claimed "offset is 0, never negative". -/
theorem C5_counterexample :
    MagicGrid.setup MagicGrid.cfgC5 50 MagicGrid.itemsC5 = some ([⟨0, 0⟩], -40) ∧
    ∃ r, MagicGrid.positionItems MagicGrid.cfgC5 50 MagicGrid.itemsC5 = some r ∧
      r.placements.map MagicGrid.Placement.left = [-20] ∧
      ¬ (∀ p ∈ r.placements, p.left = (p.col : ℚ) * 100) := by
  refine ⟨?_, ⟨⟨[⟨0, -20, 0, 0⟩], [⟨20, 0⟩], 30⟩, ?_, by norm_num, ?_⟩⟩
  · norm_num [MagicGrid.setup, MagicGrid.colWidth, MagicGrid.numColsOf,
      MagicGrid.cfgC5, MagicGrid.itemsC5, List.range_succ,
      show Int.toNat 1 = 1 from rfl]
  · norm_num [MagicGrid.positionItems, MagicGrid.setup, MagicGrid.colWidth,
      MagicGrid.numColsOf, MagicGrid.nextCol, MagicGrid.positionLoop,
      MagicGrid.placeItem, MagicGrid.updateCols, MagicGrid.cfgC5,
      MagicGrid.itemsC5, List.range_succ, show Int.toNat 1 = 1 from rfl]
  · intro h
    have := h ⟨0, -20, 0, 0⟩ (by simp)
    norm_num at this

/-- C5 (amended): when centering is enabled, the offset added to every
item's left coordinate is `floor(wSpace/2)` — including when the leftover
space `wSpace` is negative, in which case the items are shifted LEFT
(negative offset), not held at 0. -/
theorem C5_center_offset_amended (cfg : MagicGrid.Config) (w : ℚ)
    (items : List MagicGrid.Rect) (r : MagicGrid.LayoutResult)
    (cols : List MagicGrid.Column) (ws₀ cw : ℚ)
    (hc : cfg.center = true)
    (hset : MagicGrid.setup cfg w items = some (cols, ws₀))
    (hcw : MagicGrid.colWidth cfg.gutter items = some cw)
    (hrun : MagicGrid.positionItems cfg w items = some r) :
    ∀ p ∈ r.placements, p.left = (p.col : ℚ) * cw + ((⌊ws₀ / 2⌋ : ℤ) : ℚ) := by
  unfold MagicGrid.positionItems at hrun
  rw [hset, hcw] at hrun
  simp only [hc, if_true] at hrun
  cases hloop : MagicGrid.positionLoop cfg.useMin cfg.gutter cw
      ((⌊ws₀ / 2⌋ : ℤ) : ℚ) 0 cols 0 items with
  | none => rw [hloop] at hrun; simp at hrun
  | some s =>
    obtain ⟨cf, maxH, ps⟩ := s
    rw [hloop] at hrun
    simp only [Option.some.injEq] at hrun
    subst hrun
    intro p hp
    exact MagicGrid.positionLoop_left cfg.useMin cfg.gutter cw _ items 0 cols 0
      cf maxH ps hloop p hp

/-- Witness for the amended C5: in the negative-leftover scenario the
offset actually applied is `floor(−40/2) = −20`. -/
theorem C5_center_offset_amended_witness :
    (MagicGrid.Placement.mk 0 (-20) 0 0).left =
      ((MagicGrid.Placement.mk 0 (-20) 0 0).col : ℚ) * 100 +
        ((⌊(-40 : ℚ) / 2⌋ : ℤ) : ℚ) := by
  have h := C5_center_offset_amended MagicGrid.cfgC5 50 MagicGrid.itemsC5
    ⟨[⟨0, -20, 0, 0⟩], [⟨20, 0⟩], 30⟩ [⟨0, 0⟩] (-40) 100 rfl
    (by norm_num [MagicGrid.setup, MagicGrid.colWidth, MagicGrid.numColsOf,
      MagicGrid.cfgC5, MagicGrid.itemsC5, List.range_succ,
      show Int.toNat 1 = 1 from rfl])
    (by norm_num [MagicGrid.colWidth, MagicGrid.cfgC5, MagicGrid.itemsC5])
    (by norm_num [MagicGrid.positionItems, MagicGrid.setup, MagicGrid.colWidth,
      MagicGrid.numColsOf, MagicGrid.nextCol, MagicGrid.positionLoop,
      MagicGrid.placeItem, MagicGrid.updateCols, MagicGrid.cfgC5,
      MagicGrid.itemsC5, List.range_succ, show Int.toNat 1 = 1 from rfl])
  exact h ⟨0, -20, 0, 0⟩ (by simp)

/-- C6 counterexample: a successful construction (container resolved, 5 of
5 items present) performs only the base styling — it schedules no polling
interval and runs no layout pass, so readiness detection does NOT begin
automatically at construction. -/
theorem C6_counterexample :
    MagicGrid.constructorEffs false 5 (some 5) = some [MagicGrid.Eff.styleInit] ∧
      ¬ (MagicGrid.Eff.scheduleInterval ∈ [MagicGrid.Eff.styleInit] ∨
         MagicGrid.Eff.layout ∈ [MagicGrid.Eff.styleInit]) := by
  decide

/-- C6 (amended): construction only validates and applies base styles; it
never schedules the polling interval, subscribes to resize, or lays out.
Readiness detection and the first layout begin when the host calls
`listen()`: if ready it subscribes, lays out, and fires the ready callback;
otherwise it starts the polling interval via `getReady()`. -/
theorem C6_construction_amended :
    (∀ (st : Bool) (sz : ℕ) (c : Option ℕ) (es : List MagicGrid.Eff),
      MagicGrid.constructorEffs st sz c = some es →
        MagicGrid.Eff.scheduleInterval ∉ es ∧ MagicGrid.Eff.layout ∉ es ∧
          MagicGrid.Eff.addResizeListener ∉ es) ∧
    (∀ (st : Bool) (sz : ℕ) (c : Option ℕ) (h : Bool),
      MagicGrid.readyCheck st sz c = some true →
        MagicGrid.listenEffs st sz c h =
          some ([MagicGrid.Eff.addResizeListener, MagicGrid.Eff.layout] ++
            if h then [MagicGrid.Eff.readyCallback] else [])) ∧
    (∀ (st : Bool) (sz : ℕ) (c : Option ℕ) (h : Bool),
      MagicGrid.readyCheck st sz c = some false →
        MagicGrid.listenEffs st sz c h = some [MagicGrid.Eff.scheduleInterval]) := by
  refine ⟨?_, ?_, ?_⟩
  · intro st sz c es h
    unfold MagicGrid.constructorEffs at h
    cases hr : MagicGrid.readyCheck st sz c with
    | none => rw [hr] at h; simp at h
    | some b =>
      rw [hr] at h
      cases b
      · simp only [Option.some.injEq] at h
        subst h
        simp
      · simp only [Option.some.injEq] at h
        subst h
        simp
  · intro st sz c h hr
    unfold MagicGrid.listenEffs
    rw [hr]
  · intro st sz c h hr
    unfold MagicGrid.listenEffs
    rw [hr]

/-- Witness for the amended C6: construction with all items present styles
only; `listen()` when ready lays out and subscribes; `listen()` when not
ready schedules the polling interval. -/
theorem C6_construction_amended_witness :
    (MagicGrid.Eff.scheduleInterval ∉ [MagicGrid.Eff.styleInit] ∧
      MagicGrid.Eff.layout ∉ [MagicGrid.Eff.styleInit] ∧
      MagicGrid.Eff.addResizeListener ∉ [MagicGrid.Eff.styleInit]) ∧
    MagicGrid.listenEffs true 5 none true =
      some ([MagicGrid.Eff.addResizeListener, MagicGrid.Eff.layout] ++
        if true then [MagicGrid.Eff.readyCallback] else []) ∧
    MagicGrid.listenEffs false 5 (some 0) false =
      some [MagicGrid.Eff.scheduleInterval] :=
  ⟨C6_construction_amended.1 false 5 (some 5) [MagicGrid.Eff.styleInit] (by decide),
   C6_construction_amended.2.1 true 5 none true (by decide),
   C6_construction_amended.2.2 false 5 (some 0) false (by decide)⟩

/-- C7 counterexample: a non-static polling tick whose container cannot be
resolved throws (`ready()` reads `children` of `null`) instead of
evaluating to a non-ready state. -/
theorem C7_counterexample :
    MagicGrid.getReadyTick false 5 none false = none ∧
      ¬ MagicGrid.getReadyTick false 5 none false = some [] := by
  decide

/-- C7 (amended): at a non-static polling tick, a missing container makes
the readiness evaluation throw (it is not surfaced as a quiet non-ready
state); the tick performs no effects either way, and a resolved container
with fewer items than the target yields a quiet non-ready tick — polling
continues because the interval is only ever cancelled on a ready tick. -/
theorem C7_polling_tick_amended :
    (∀ (sz : ℕ) (h : Bool), MagicGrid.getReadyTick false sz none h = none) ∧
    (∀ (sz n : ℕ) (h : Bool), n < sz →
      MagicGrid.getReadyTick false sz (some n) h = some []) := by
  constructor
  · intro sz h
    rfl
  · intro sz n h hlt
    have hd : decide (sz ≤ n) = false := decide_eq_false (by omega)
    unfold MagicGrid.getReadyTick MagicGrid.readyCheck
    simp [hd]

/-- Witness for the amended C7: a tick with an unresolved container throws;
a tick seeing 2 of 5 items stays quietly non-ready. -/
theorem C7_polling_tick_amended_witness :
    MagicGrid.getReadyTick false 5 none true = none ∧
      MagicGrid.getReadyTick false 5 (some 2) false = some [] :=
  ⟨C7_polling_tick_amended.1 5 true,
   C7_polling_tick_amended.2 5 2 false (by decide)⟩

namespace MagicGrid

/-- While a debounce timeout is pending, notifications arriving before its
fire time change nothing: the pending timeout services them all and fires
exactly once. -/
theorem debounceRun_pending_absorbs :
    ∀ (es : List ℚ) (ft : ℚ), (∀ t ∈ es, t < ft) →
      debounceRun (some ft) es = [ft] := by
  intro es
  induction es with
  | nil => intro ft h; rfl
  | cons t ts ih =>
    intro ft h
    have hnle : ¬ ft ≤ t := by
      have := h t (by simp)
      linarith
    simp only [debounceRun, if_neg hnle]
    exact ih ft (fun x hx => h x (by simp [hx]))

end MagicGrid

/-- C9 counterexample: two resize notifications at t = 0 and t = 100 (a
burst within the 200ms window) produce one layout firing at t = 200 —
200ms after the FIRST notification — not at t = 300 (200ms after the last)
as the claim states. -/
theorem C9_counterexample :
    MagicGrid.debounceRun none [0, 100] = [200] ∧
      ¬ MagicGrid.claimC9Pred 0 [100] := by
  constructor
  · norm_num [MagicGrid.debounceRun, MagicGrid.handleResize]
  · intro h
    unfold MagicGrid.claimC9Pred at h
    norm_num [MagicGrid.debounceRun, MagicGrid.handleResize,
      List.getLastD] at h

/-- C9 (amended): a burst of notifications whose later events all arrive
before `first + 200` triggers exactly one layout recomputation, scheduled
200ms after the FIRST notification of the burst; a notification while a
timeout is pending is a no-op (it does not reschedule). -/
theorem C9_debounce_amended (e : ℚ) (es : List ℚ)
    (h : ∀ t ∈ es, t < e + 200) :
    MagicGrid.debounceRun none (e :: es) = [e + 200] ∧
      ∀ (now ft : ℚ), MagicGrid.handleResize now (some ft) = some ft := by
  constructor
  · simp only [MagicGrid.debounceRun]
    exact MagicGrid.debounceRun_pending_absorbs es (e + 200) h
  · intro now ft
    rfl

/-- Witness for the amended C9: ten notifications at 0, 20, …, 180 (all
within 200ms of the first) yield exactly one firing, at t = 200. -/
theorem C9_debounce_amended_witness :
    MagicGrid.debounceRun none [0, 20, 40, 60, 80, 100, 120, 140, 160, 180] =
      [200] ∧
      ∀ (now ft : ℚ), MagicGrid.handleResize now (some ft) = some ft := by
  have h := C9_debounce_amended 0 [20, 40, 60, 80, 100, 120, 140, 160, 180]
    (by intro t ht; fin_cases ht <;> norm_num)
  refine ⟨?_, h.2⟩
  rw [h.1]
  norm_num
